import Mathlib

/-!
OVAL RPM-info document model and its textual rendering.

A shallow embedding of `main.go`: the document model (`oval_definitions` and
the types it is built from), the `String` methods that render it, `getArgs`
and the driver `main`.

Go strings are rendered with `+` and `fmt.Sprintf("%s")` only, so they are
embedded as Lean strings with `++`.  A `for` loop that extends `result` is
embedded as a recursive function threading the accumulator `result` through the
list it ranges over.
-/

namespace Oval

set_option maxRecDepth 100000

/-! ## Data model -/

/-- The Go struct `generator`. -/
structure generator where
  ProductName : String
  ProductVersion : String
  SchemaVersion : String
  Timestamp : String
  Any : String
deriving DecidableEq, Repr

/-- The Go struct `objectRef`. -/
structure objectRef where
  Id : String
deriving DecidableEq, Repr

/-- The Go struct `stateRef`. -/
structure stateRef where
  Id : String
deriving DecidableEq, Repr

/-- The Go struct `rpmInfoTest`. -/
structure rpmInfoTest where
  Id : String
  Version : String
  Comment : String
  Check : String
  ObjectRef : objectRef
  StateRef : stateRef
deriving DecidableEq, Repr

/-- The Go struct `rpmInfoObject`. -/
structure rpmInfoObject where
  Id : String
  Version : String
  Name : String
deriving DecidableEq, Repr

/-- The Go struct `version`. -/
structure version where
  Operation : String
  Value : String
deriving DecidableEq, Repr

/-- The Go struct `evr`. -/
structure evr where
  DataType : String
  Operation : String
  Value : String
deriving DecidableEq, Repr

/-- The Go struct `rpmInfoState`. -/
structure rpmInfoState where
  Id : String
  Version : String
  Evr : evr
  Ver : version
deriving DecidableEq, Repr

/-- The Go struct `advisory`. -/
structure advisory where
  From : String
  Severity : String
  Rights : String
deriving DecidableEq, Repr

/-- The Go struct `reference`. -/
structure reference where
  Source : String
  URI : String
  RefId : String
deriving DecidableEq, Repr

/-- The Go struct `criterion`. -/
structure criterion where
  TestRef : String
  Comment : String
deriving DecidableEq, Repr

/-- The Go struct `criteria`.  `Criterias` is a slice of pointers to the
sub-criteria; the decoder allocates a fresh node for every nested element, so
the pointers are non-nil and unshared and the value is a finite tree. -/
inductive criteria where
  | mk (Operator : String) (Criterias : List criteria) (Criterions : List criterion) : criteria

/-- Field `Operator` of a `criteria` node. -/
def criteria.Operator : criteria → String
  | .mk op _ _ => op

/-- Field `Criterias` of a `criteria` node. -/
def criteria.Criterias : criteria → List criteria
  | .mk _ cs _ => cs

/-- Field `Criterions` of a `criteria` node. -/
def criteria.Criterions : criteria → List criterion
  | .mk _ _ crs => crs

/-- The Go struct `metadata`. -/
structure metadata where
  Title : String
  Description : String
  References : List reference
  Advisory : advisory
deriving DecidableEq, Repr

/-- The Go struct `definition`. -/
structure definition where
  Metadata : metadata
  Criteria : criteria

/-- The Go struct `oval_definitions`. -/
structure oval_definitions where
  Generator : generator
  Definitions : List definition
  RPMInfoTests : List rpmInfoTest
  RPMInfoObjects : List rpmInfoObject
  RPMInfoState : List rpmInfoState

/-! ## Rendering -/

/-- The method `generator.String`. -/
def generator.String (g : generator) : String :=
  "Product name: " ++ g.ProductName ++ "\nProduct Version " ++ g.ProductVersion
    ++ "\nSchema Version " ++ g.SchemaVersion ++ "\nTimestamp " ++ g.Timestamp
    ++ "\nOther " ++ g.Any

/-- The method `rpmInfoTest.String`. -/
def rpmInfoTest.String (r : rpmInfoTest) : String :=
  let result := ""
  let result := result ++ ("Id : " ++ r.Id ++ "\n")
  let result := result ++ ("Version: " ++ r.Version ++ "\n")
  let result := result ++ ("Comment: " ++ r.Comment ++ "\n")
  let result := result ++ ("Check: " ++ r.Check ++ "\n")
  let result := result ++ ("ObjectRef: " ++ r.ObjectRef.Id ++ "\n")
  let result := result ++ ("SateRef: " ++ r.StateRef.Id ++ "\n")
  result

/-- The method `rpmInfoObject.String`. -/
def rpmInfoObject.String (r : rpmInfoObject) : String :=
  "Id: " ++ r.Id ++ " Version: " ++ r.Version ++ " Name: " ++ r.Name

/-- The method `rpmInfoState.String`. -/
def rpmInfoState.String (r : rpmInfoState) : String :=
  "Id: " ++ r.Id ++ " Version: " ++ r.Version ++ "\nEvr: " ++ r.Evr.DataType ++ " "
    ++ r.Evr.Operation ++ " " ++ r.Evr.Value ++ "\nVersion: " ++ r.Ver.Operation ++ " "
    ++ r.Ver.Value

/-- The method `advisory.String`. -/
def advisory.String (a : advisory) : String :=
  "Advisory from: " ++ a.From ++ " of severity " ++ a.Severity ++ " with rights " ++ a.Rights

/-- The first loop of `criteria.String`: one entry per element of `Criterions`,
appended to `result`. -/
def criteria.criterionsLoop : List criterion → String → String
  | [], result => result
  | cr :: rest, result =>
    criteria.criterionsLoop rest (result ++ ("Criterion: " ++ cr.TestRef ++ " " ++ cr.Comment ++ "\n"))

/-! ## Execution of the recursion with a bounded call stack -/

/-- A loop calling `f` on each element of `Criterias` and appending what it
returns; `none` when a call does not return. -/
def criteria.criteriasLoopFuel (f : criteria → Option String) :
    List criteria → String → Option String
  | [], result => some result
  | c :: rest, result =>
    match f c with
    | none => none
    | some s => criteria.criteriasLoopFuel f rest (result ++ s)

/-- The method `criteria.String` run with at most `fuel` nested calls: `none`
when the call stack would have to grow deeper than `fuel`. -/
def criteria.StringFuel : Nat → criteria → Option String
  | 0, _ => none
  | fuel + 1, .mk op cs crs =>
    let result := "Criteria operator: " ++ op
    let result := criteria.criterionsLoop crs result
    criteria.criteriasLoopFuel (criteria.StringFuel fuel) cs result

/-! ## Rendering of the criteria tree and of the document -/

mutual
/-- The method `criteria.String`. -/
def criteria.String : criteria → String
  | .mk op cs crs =>
    let result := "Criteria operator: " ++ op
    let result := criteria.criterionsLoop crs result
    criteria.criteriasLoop cs result
/-- The second loop of `criteria.String`: the rendering of each element of
`Criterias`, appended to `result`. -/
def criteria.criteriasLoop : List criteria → String → String
  | [], result => result
  | c :: rest, result => criteria.criteriasLoop rest (result ++ criteria.String c)
end

/-- The inner loop of `oval_definitions.String` over the references of one
definition. -/
def oval_definitions.referencesLoop : List reference → String → String
  | [], result => result
  | r :: rest, result =>
    let result := result ++ ("Reference:source: " ++ r.Source ++ "\n")
    let result := result ++ ("Reference:url: " ++ r.URI ++ "\n")
    oval_definitions.referencesLoop rest result

/-- The loop of `oval_definitions.String` over `Definitions`. -/
def oval_definitions.definitionsLoop : List definition → String → String
  | [], result => result
  | d :: rest, result =>
    let result := result ++ ("Metadata:Title: " ++ d.Metadata.Title ++ "\n")
    let result := result ++ ("Metadata:Description: " ++ d.Metadata.Description ++ "\n")
    let result := oval_definitions.referencesLoop d.Metadata.References result
    let result := result ++ d.Criteria.String
    oval_definitions.definitionsLoop rest result

/-- The loop of `oval_definitions.String` over `RPMInfoTests`. -/
def oval_definitions.testsLoop : List rpmInfoTest → String → String
  | [], result => result
  | t :: rest, result => oval_definitions.testsLoop rest (result ++ ("Tests: " ++ t.String ++ "\n"))

/-- The loop of `oval_definitions.String` over `RPMInfoState`. -/
def oval_definitions.statesLoop : List rpmInfoState → String → String
  | [], result => result
  | s :: rest, result => oval_definitions.statesLoop rest (result ++ ("States: " ++ s.String ++ "\n"))

/-- The loop of `oval_definitions.String` over `RPMInfoObjects`. -/
def oval_definitions.objectsLoop : List rpmInfoObject → String → String
  | [], result => result
  | b :: rest, result =>
    oval_definitions.objectsLoop rest (result ++ ("Objects: " ++ b.String ++ "\n"))

/-- The method `oval_definitions.String`. -/
def oval_definitions.String (o : oval_definitions) : String :=
  let result := ""
  let result := result ++ ("++ Generator\n" ++ o.Generator.String ++ "\n\n")
  let result := oval_definitions.definitionsLoop o.Definitions result
  let result := result ++ "\n"
  let result := oval_definitions.testsLoop o.RPMInfoTests result
  let result := oval_definitions.statesLoop o.RPMInfoState result
  let result := oval_definitions.objectsLoop o.RPMInfoObjects result
  result

/-! ## Command line and driver -/

/-- The Go struct `myError`. -/
structure myError where
  Message : String
deriving DecidableEq, Repr

/-- The method `myError.Error`. -/
def myError.Error (e : myError) : String := e.Message

/-- The function `getArgs`, over the argument vector `os.Args`: the file name
and the error, `none` standing for `nil`. -/
def getArgs (Args : List String) : String × Option myError :=
  if h : Args.length ≠ 2 then
    ("", some { Message := "wrong # of arguments" })
  else
    (Args.get ⟨1, by omega⟩, none)

/-- How a run of the program ends: `main` returns, `os.Exit` is called with a
code, or the run panics. -/
inductive Termination where
  | returned : Termination
  | exited (code : Int) : Termination
  | panicked (msg : String) : Termination
deriving DecidableEq, Repr

/-- The exit status the operating system sees: 0 when `main` returns, the low
eight bits of the code given to `os.Exit`, 2 for a panic. -/
def Termination.exitStatus : Termination → Nat
  | .returned => 0
  | .exited code => (code % 256).toNat
  | .panicked _ => 2

/-- What a run of the program leaves behind: the writes to standard output and
standard error, in order, and how it ended. -/
structure Process where
  stdout : List String
  stderr : List String
  termination : Termination
deriving DecidableEq, Repr

/-- The bytes of a file. -/
abbrev Bytes := List Nat

/-- An open file. -/
abbrev File := Nat

/-- The library calls `main` makes, as functions of their arguments: `os.Open`,
`ioutil.ReadAll` (the bytes read and the error, if any), `xml.Unmarshal` (the
value it left in `v` and the error, if any) and the time stamp the logger
writes in front of a message. -/
structure World where
  Open : String → Except String File
  ReadAll : File → Bytes × Option String
  Unmarshal : Bytes → oval_definitions × Option String
  logTime : String

/-- The function `usage_and_exit`.  `fmt.Println` does not interpret `%s`: it
writes its operands separated by a blank.  `os.Args[0]` is evaluated after the
first line is written and panics on an empty argument vector; the runtime then
writes the panic message to standard error, followed by a goroutine trace that
depends on the binary and is left out here. -/
def usage_and_exit (Args : List String) (err : myError) : Process :=
  let out := [err.Error ++ "\n"]
  match Args with
  | [] =>
    { stdout := out,
      stderr := ["panic: runtime error: index out of range [0] with length 0\n"],
      termination := .panicked "runtime error: index out of range [0] with length 0" }
  | arg0 :: _ =>
    let out := out ++ ["usage: %s filename.xml" ++ " " ++ arg0 ++ "\n"]
    let out := out ++ [" where filename.xml is oval xml file to parse\n"]
    { stdout := out, stderr := [], termination := .exited (-1) }

/-- The line `log.Fatal` writes to standard error: the time stamp, the message,
and a newline unless the message already ends in one. -/
def logLine (w : World) (msg : String) : String :=
  w.logTime ++ msg ++ (if msg.endsWith "\n" then "" else "\n")

/-- The function `main`.  `usage_and_exit` and `log.Fatal` end the process;
the deferred `xmlFile.Close()` writes nothing and is left out. -/
def main (w : World) (Args : List String) : Process :=
  match getArgs Args with
  | (_, some err) => usage_and_exit Args err
  | (file, none) =>
    let out := ["Parsing file " ++ " " ++ file ++ "\n"]
    match w.Open file with
    | .error err =>
      { stdout := out ++ ["Error opening file:" ++ " " ++ err ++ "\n"], stderr := [],
        termination := .returned }
    | .ok xmlFile =>
      match w.ReadAll xmlFile with
      | (_, some err) =>
        { stdout := out, stderr := [logLine w err], termination := .exited 1 }
      | (data, none) =>
        match w.Unmarshal data with
        | (_, some err) =>
          { stdout := out ++ ["Error unmarshalling" ++ " " ++ err ++ "\n"], stderr := [],
            termination := .returned }
        | (v, none) =>
          { stdout := out ++ [v.String ++ "\n"], stderr := [], termination := .returned }

mutual
/-- Number of `criteria` nodes of a tree. -/
def criteria.size : criteria → Nat
  | .mk _ cs _ => 1 + criteria.sizeList cs
/-- Number of `criteria` nodes of a list of trees. -/
def criteria.sizeList : List criteria → Nat
  | [] => 0
  | c :: rest => criteria.size c + criteria.sizeList rest
end

mutual
/-- Number of nodes on the longest path from the root of a tree to a node
without sub-criteria. -/
def criteria.depth : criteria → Nat
  | .mk _ cs _ => 1 + criteria.depthList cs
/-- The largest depth among a list of trees, 0 for the empty list. -/
def criteria.depthList : List criteria → Nat
  | [] => 0
  | c :: rest => max (criteria.depth c) (criteria.depthList rest)
end

/-! ## Vocabulary of the specification -/

mutual
/-- All `criteria` nodes of a tree, the root first. -/
def criteria.nodes : criteria → List criteria
  | .mk op cs crs => .mk op cs crs :: criteria.nodesList cs
/-- All `criteria` nodes of a list of trees. -/
def criteria.nodesList : List criteria → List criteria
  | [] => []
  | c :: rest => criteria.nodes c ++ criteria.nodesList rest
end

/-- All criterion leaves of a tree, at any depth. -/
def criteria.leaves (c : criteria) : List criterion :=
  (criteria.nodes c).flatMap criteria.Criterions

/-- All criterion leaves of a document. -/
def oval_definitions.leaves (o : oval_definitions) : List criterion :=
  o.Definitions.flatMap fun d => d.Criteria.leaves

/-- All `criteria` nodes of a document. -/
def oval_definitions.nodes (o : oval_definitions) : List criteria :=
  o.Definitions.flatMap fun d => d.Criteria.nodes

/-- A document has a dangling reference: a criterion whose `test_ref` is the
id of no test, or a test whose `object_ref` is the id of no object or whose
`state_ref` is the id of no state. -/
def oval_definitions.hasDanglingReference (o : oval_definitions) : Bool :=
  (o.leaves.any fun cr => !(o.RPMInfoTests.map fun t => t.Id).contains cr.TestRef)
  || (o.RPMInfoTests.any fun t =>
        !(o.RPMInfoObjects.map fun b => b.Id).contains t.ObjectRef.Id
        || !(o.RPMInfoState.map fun s => s.Id).contains t.StateRef.Id)

/-- A list of identifiers has a repeated element. -/
def hasDuplicate : List String → Bool
  | [] => false
  | x :: rest => rest.contains x || hasDuplicate rest

/-- A document has a duplicate identifier: two tests, two objects or two states
with the same id. -/
def oval_definitions.hasDuplicateIdentifier (o : oval_definitions) : Bool :=
  hasDuplicate (o.RPMInfoTests.map fun t => t.Id)
  || hasDuplicate (o.RPMInfoObjects.map fun b => b.Id)
  || hasDuplicate (o.RPMInfoState.map fun s => s.Id)

/-- The operator of a node is missing or is neither `AND` nor `OR`. -/
def criteria.hasAmbiguousOperator (c : criteria) : Bool :=
  c.Operator != "AND" && c.Operator != "OR"

/-- The string `x` occurs in the string `s`. -/
def Occurs (x s : String) : Prop := x.data <:+: s.data

instance (x s : String) : Decidable (Occurs x s) :=
  inferInstanceAs (Decidable (x.data <:+: s.data))

/-- The run that reports no error: the announcement of the file, then the
rendering of the document, nothing on standard error, and a return from
`main`. -/
def renderedRun (file : String) (o : oval_definitions) : Process :=
  { stdout := ["Parsing file " ++ " " ++ file ++ "\n", o.String ++ "\n"], stderr := [],
    termination := .returned }

/-- A world in which every file opens and reads without error and the bytes
unmarshal to `o` without error. -/
def worldOf (o : oval_definitions) : World :=
  { Open := fun _ => .ok 3, ReadAll := fun _ => ([], none), Unmarshal := fun _ => (o, none),
    logTime := "" }

/-- The generator of a document without a generator element. -/
def noGenerator : generator :=
  { ProductName := "", ProductVersion := "", SchemaVersion := "", Timestamp := "", Any := "" }

/-- The advisory of a definition without an advisory element. -/
def noAdvisory : advisory := { From := "", Severity := "", Rights := "" }

/-- A document whose only criterion refers to the test `tst:99` while the
document has no test at all. -/
def docDangling : oval_definitions :=
  { Generator := noGenerator,
    Definitions := [{ Metadata := { Title := "CVE-1", Description := "", References := [],
                                    Advisory := noAdvisory },
                      Criteria := .mk "AND" [] [{ TestRef := "tst:99", Comment := "gone" }] }],
    RPMInfoTests := [], RPMInfoObjects := [], RPMInfoState := [] }

/-- A document with two states that both carry the id `ste:1` and differ in
their version attribute. -/
def docDuplicate : oval_definitions :=
  { Generator := noGenerator, Definitions := [], RPMInfoTests := [], RPMInfoObjects := [],
    RPMInfoState :=
      [{ Id := "ste:1", Version := "1", Evr := { DataType := "", Operation := "", Value := "" },
         Ver := { Operation := "", Value := "" } },
       { Id := "ste:1", Version := "2", Evr := { DataType := "", Operation := "", Value := "" },
         Ver := { Operation := "", Value := "" } }] }

/-- A criteria node without operator that holds a node with the operator
`XOR`. -/
def nodeAmbiguous : criteria := .mk "" [.mk "XOR" [] []] []

/-- A document whose only definition has `nodeAmbiguous` as its criteria. -/
def docAmbiguous : oval_definitions :=
  { Generator := noGenerator,
    Definitions := [{ Metadata := { Title := "", Description := "", References := [],
                                    Advisory := noAdvisory },
                      Criteria := nodeAmbiguous }],
    RPMInfoTests := [], RPMInfoObjects := [], RPMInfoState := [] }

/-- The empty document: no definitions, tests, objects or states, and the
zero-valued generator. -/
def docEmpty : oval_definitions :=
  { Generator := noGenerator, Definitions := [], RPMInfoTests := [], RPMInfoObjects := [],
    RPMInfoState := [] }

/-- A world in which no file can be opened. -/
def worldOpenFails : World :=
  { Open := fun file => .error ("open " ++ file ++ ": no such file or directory"),
    ReadAll := fun _ => ([], none), Unmarshal := fun _ => (docEmpty, none), logTime := "" }

/-- A world in which every file opens and reading it fails. -/
def worldReadFails : World :=
  { Open := fun _ => .ok 3, ReadAll := fun _ => ([], some "read: input/output error"),
    Unmarshal := fun _ => (docEmpty, none), logTime := "" }

/-- A world in which every file opens and reads and the bytes are no XML
document: `xml.Unmarshal` returns the error `EOF` and leaves `v` as it was. -/
def worldUnmarshalFails : World :=
  { Open := fun _ => .ok 3, ReadAll := fun _ => ([], none),
    Unmarshal := fun _ => (docEmpty, some "EOF"), logTime := "" }

/-- A reference with the field no `String` method reads, `RefId`, blanked. -/
def reference.printed (r : reference) : reference :=
  { Source := r.Source, URI := r.URI, RefId := "" }

/-- A metadata block with the fields no `String` method reads blanked: the
advisory and the `RefId` of each reference. -/
def metadata.printed (m : metadata) : metadata :=
  { Title := m.Title, Description := m.Description,
    References := m.References.map reference.printed, Advisory := noAdvisory }

/-- A definition with the unread fields of its metadata blanked. -/
def definition.printed (d : definition) : definition :=
  { Metadata := d.Metadata.printed, Criteria := d.Criteria }

/-- A document with the unread fields of its definitions blanked.  Two
documents are equal except for the advisory blocks and the `RefId`s when
blanking these makes them equal. -/
def oval_definitions.printed (o : oval_definitions) : oval_definitions :=
  { Generator := o.Generator, Definitions := o.Definitions.map definition.printed,
    RPMInfoTests := o.RPMInfoTests, RPMInfoObjects := o.RPMInfoObjects,
    RPMInfoState := o.RPMInfoState }

/-- A document with one definition that has an advisory and one reference
with a `RefId`. -/
def docAdvisoryRedHat : oval_definitions :=
  { Generator := noGenerator,
    Definitions :=
      [{ Metadata :=
           { Title := "RHSA-1", Description := "d",
             References := [{ Source := "CVE", URI := "http://cve", RefId := "CVE-2015-0252" }],
             Advisory := { From := "secalert@redhat.com", Severity := "Moderate",
                           Rights := "Copyright 2015 Red Hat, Inc." } },
         Criteria := .mk "AND" [] [{ TestRef := "tst:1", Comment := "c" }] }],
    RPMInfoTests := [], RPMInfoObjects := [], RPMInfoState := [] }

/-- The document `docAdvisoryRedHat` with another advisory and another
`RefId`. -/
def docAdvisoryOther : oval_definitions :=
  { Generator := noGenerator,
    Definitions :=
      [{ Metadata :=
           { Title := "RHSA-1", Description := "d",
             References := [{ Source := "CVE", URI := "http://cve", RefId := "other" }],
             Advisory := { From := "nobody", Severity := "Critical", Rights := "" } },
         Criteria := .mk "AND" [] [{ TestRef := "tst:1", Comment := "c" }] }],
    RPMInfoTests := [], RPMInfoObjects := [], RPMInfoState := [] }

/-- A document with both kinds of dangling reference: its criterion refers to
the test `tst:99`, which the document does not have, and its only test `tst:1`
refers to the object `obj:9` and the state `ste:9` while the document has no
object and no state. -/
def docDanglingTest : oval_definitions :=
  { Generator := noGenerator,
    Definitions := [{ Metadata := { Title := "CVE-1", Description := "", References := [],
                                    Advisory := noAdvisory },
                      Criteria := .mk "AND" [] [{ TestRef := "tst:99", Comment := "gone" }] }],
    RPMInfoTests := [{ Id := "tst:1", Version := "1", Comment := "t", Check := "all",
                       ObjectRef := { Id := "obj:9" }, StateRef := { Id := "ste:9" } }],
    RPMInfoObjects := [], RPMInfoState := [] }

/-! ## The document as it lies in memory

`Criterias` is a slice of pointers, and every `String` method has a pointer
receiver.  Here a `criteria` struct holds the addresses of its sub-criteria,
and the methods follow them through the memory. -/

/-- A pointer to a `criteria` struct. -/
abbrev Pointer := Nat

/-- The Go struct `criteria` as a value in memory: `Criterias` holds the
pointers themselves. -/
structure criteriaCell where
  Operator : String
  Criterias : List Pointer
  Criterions : List criterion
deriving DecidableEq, Repr

/-- The memory the pointers point into: the struct at an address, `none` for
the nil pointer and for an address that holds no struct. -/
abbrev Memory := Pointer → Option criteriaCell

/-- The Go struct `definition` as a value in memory: the root `criteria` is
held by value. -/
structure definitionCell where
  Metadata : metadata
  Criteria : criteriaCell
deriving DecidableEq, Repr

/-- The Go struct `oval_definitions` as a value in memory. -/
structure documentCell where
  Generator : generator
  Definitions : List definitionCell
  RPMInfoTests : List rpmInfoTest
  RPMInfoObjects : List rpmInfoObject
  RPMInfoState : List rpmInfoState
deriving DecidableEq, Repr

/-- The second loop of `criteria.String` over the pointers in `Criterias`; `f`
is the call `c.Criterias[j].String()`, `none` when it does not return. -/
def criteriasLoopAt (f : Pointer → Option String) : List Pointer → String → Option String
  | [], result => some result
  | p :: rest, result =>
    match f p with
    | none => none
    | some s => criteriasLoopAt f rest (result ++ s)

/-- The method `criteria.String` on a struct in memory, run with at most `fuel`
nested calls: `none` when a pointer it follows is nil or dangling (the
dereference panics) or when the call stack would grow deeper than `fuel`. -/
def criteriaCell.StringAt (m : Memory) : Nat → criteriaCell → Option String
  | 0, _ => none
  | fuel + 1, c =>
    let result := "Criteria operator: " ++ c.Operator
    let result := criteria.criterionsLoop c.Criterions result
    criteriasLoopAt
      (fun p =>
        match m p with
        | none => none
        | some child => criteriaCell.StringAt m fuel child)
      c.Criterias result

/-- The loop of `oval_definitions.String` over `Definitions`, on structs in
memory. -/
def definitionsLoopAt (m : Memory) (fuel : Nat) : List definitionCell → String → Option String
  | [], result => some result
  | d :: rest, result =>
    let result := result ++ ("Metadata:Title: " ++ d.Metadata.Title ++ "\n")
    let result := result ++ ("Metadata:Description: " ++ d.Metadata.Description ++ "\n")
    let result := oval_definitions.referencesLoop d.Metadata.References result
    match d.Criteria.StringAt m fuel with
    | none => none
    | some s => definitionsLoopAt m fuel rest (result ++ s)

/-- The method `oval_definitions.String` on a document in memory. -/
def documentCell.StringAt (m : Memory) (fuel : Nat) (o : documentCell) : Option String :=
  let result := ""
  let result := result ++ ("++ Generator\n" ++ o.Generator.String ++ "\n\n")
  match definitionsLoopAt m fuel o.Definitions result with
  | none => none
  | some result =>
    let result := result ++ "\n"
    let result := oval_definitions.testsLoop o.RPMInfoTests result
    let result := oval_definitions.statesLoop o.RPMInfoState result
    let result := oval_definitions.objectsLoop o.RPMInfoObjects result
    some result

mutual
/-- The struct `cell`, with what its pointers lead to in the memory `m`, has
the content `t`: the same operator and criterions, and sub-criteria with the
contents of the sub-trees, in the same order. -/
def storesTree (m : Memory) : criteria → criteriaCell → Bool
  | .mk op cs crs, cell =>
    decide (cell.Operator = op) && decide (cell.Criterions = crs)
      && storesTrees m cs cell.Criterias
/-- The pointers lead to structs with the contents of the trees, in order. -/
def storesTrees (m : Memory) : List criteria → List Pointer → Bool
  | [], [] => true
  | [], _ :: _ => false
  | _ :: _, [] => false
  | c :: cs, p :: ps =>
    (match m p with
      | none => false
      | some cell => storesTree m c cell)
    && storesTrees m cs ps
end

/-- The definitions in memory have the contents of the definitions `ds`, in
order. -/
def storesDefinitions (m : Memory) : List definition → List definitionCell → Bool
  | [], [] => true
  | [], _ :: _ => false
  | _ :: _, [] => false
  | d :: ds, e :: es =>
    decide (e.Metadata = d.Metadata) && storesTree m d.Criteria e.Criteria
      && storesDefinitions m ds es

/-- The document in memory has the content `o`: the same generator, the same
definitions, tests, objects and states in the same order. -/
def storesDocument (m : Memory) (o : oval_definitions) (c : documentCell) : Bool :=
  decide (c.Generator = o.Generator) && storesDefinitions m o.Definitions c.Definitions
    && decide (c.RPMInfoTests = o.RPMInfoTests)
    && decide (c.RPMInfoObjects = o.RPMInfoObjects)
    && decide (c.RPMInfoState = o.RPMInfoState)

/-- The depth of the deepest criteria tree of a document. -/
def oval_definitions.depth (o : oval_definitions) : Nat :=
  criteria.depthList (o.Definitions.map fun d => d.Criteria)

/-- A memory with the `XOR` node at address 1. -/
def memoryLow : Memory := fun p => if p = 1 then some ⟨"XOR", [], []⟩ else none

/-- The document `docAmbiguous` with its `XOR` node at address 1. -/
def cellLow : documentCell :=
  { Generator := noGenerator,
    Definitions := [{ Metadata := { Title := "", Description := "", References := [],
                                    Advisory := noAdvisory },
                      Criteria := ⟨"", [1], []⟩ }],
    RPMInfoTests := [], RPMInfoObjects := [], RPMInfoState := [] }

/-- A memory with the `XOR` node at address 4096 and another struct at
address 1. -/
def memoryHigh : Memory := fun p =>
  if p = 4096 then some ⟨"XOR", [], []⟩ else if p = 1 then some ⟨"AND", [], []⟩ else none

/-- The document `docAmbiguous` with its `XOR` node at address 4096. -/
def cellHigh : documentCell :=
  { Generator := noGenerator,
    Definitions := [{ Metadata := { Title := "", Description := "", References := [],
                                    Advisory := noAdvisory },
                      Criteria := ⟨"", [4096], []⟩ }],
    RPMInfoTests := [], RPMInfoObjects := [], RPMInfoState := [] }

/-! ## Closed forms of the loops -/

theorem join_cons (a : String) (l : List String) : String.join (a :: l) = a ++ String.join l := by
  apply String.ext
  simp [String.data_join]

theorem criterionsLoop_eq (crs : List criterion) (result : String) :
    criteria.criterionsLoop crs result
      = result ++ String.join (crs.map fun cr =>
          "Criterion: " ++ cr.TestRef ++ " " ++ cr.Comment ++ "\n") := by
  induction crs generalizing result with
  | nil => simp [criteria.criterionsLoop, String.join]
  | cons cr rest ih =>
    simp only [criteria.criterionsLoop, ih, List.map_cons, join_cons, String.append_assoc]

theorem criteriasLoop_eq (cs : List criteria) (result : String) :
    criteria.criteriasLoop cs result = result ++ String.join (cs.map criteria.String) := by
  induction cs generalizing result with
  | nil => simp [criteria.criteriasLoop, String.join]
  | cons c rest ih =>
    simp only [criteria.criteriasLoop, ih, List.map_cons, join_cons, String.append_assoc]

/-- The rendering of a node: its operator line, its criterion entries, the
renderings of its sub-criteria. -/
theorem String_node (c : criteria) :
    c.String = "Criteria operator: " ++ c.Operator
      ++ String.join (c.Criterions.map fun cr =>
          "Criterion: " ++ cr.TestRef ++ " " ++ cr.Comment ++ "\n")
      ++ String.join (c.Criterias.map criteria.String) := by
  cases c with
  | mk op cs crs =>
    simp only [criteria.String, criteria.Operator, criteria.Criterions, criteria.Criterias,
      criterionsLoop_eq, criteriasLoop_eq]

/-- C1: `criteria.String` is a depth-first pre-order rendering: the operator
line of the node, then one entry per criterion in list order, then the
rendering of each sub-criteria in list order; an `AND` node with the leaves
`tst:1` and `tst:2` renders `tst:1` before `tst:2`. -/
theorem criteria_String_preorder :
    (∀ c : criteria,
      c.String = "Criteria operator: " ++ c.Operator
        ++ String.join (c.Criterions.map fun cr =>
            "Criterion: " ++ cr.TestRef ++ " " ++ cr.Comment ++ "\n")
        ++ String.join (c.Criterias.map criteria.String))
    ∧ criteria.String (.mk "AND" [] [⟨"tst:1", "first"⟩, ⟨"tst:2", "second"⟩])
        = "Criteria operator: ANDCriterion: tst:1 first\nCriterion: tst:2 second\n" :=
  ⟨String_node, by decide⟩

theorem referencesLoop_eq (rs : List reference) (result : String) :
    oval_definitions.referencesLoop rs result
      = result ++ String.join (rs.map fun r =>
          "Reference:source: " ++ r.Source ++ "\n" ++ "Reference:url: " ++ r.URI ++ "\n") := by
  induction rs generalizing result with
  | nil => simp [oval_definitions.referencesLoop, String.join]
  | cons r rest ih =>
    simp only [oval_definitions.referencesLoop, ih, List.map_cons, join_cons,
      String.append_assoc]

theorem definitionsLoop_eq (ds : List definition) (result : String) :
    oval_definitions.definitionsLoop ds result
      = result ++ String.join (ds.map fun d =>
          "Metadata:Title: " ++ d.Metadata.Title ++ "\n"
            ++ "Metadata:Description: " ++ d.Metadata.Description ++ "\n"
            ++ String.join (d.Metadata.References.map fun r =>
                "Reference:source: " ++ r.Source ++ "\n" ++ "Reference:url: " ++ r.URI ++ "\n")
            ++ d.Criteria.String) := by
  induction ds generalizing result with
  | nil => simp [oval_definitions.definitionsLoop, String.join]
  | cons d rest ih =>
    simp only [oval_definitions.definitionsLoop, ih, referencesLoop_eq, List.map_cons,
      join_cons, String.append_assoc]

theorem testsLoop_eq (ts : List rpmInfoTest) (result : String) :
    oval_definitions.testsLoop ts result
      = result ++ String.join (ts.map fun t => "Tests: " ++ t.String ++ "\n") := by
  induction ts generalizing result with
  | nil => simp [oval_definitions.testsLoop, String.join]
  | cons t rest ih =>
    simp only [oval_definitions.testsLoop, ih, List.map_cons, join_cons, String.append_assoc]

theorem statesLoop_eq (ss : List rpmInfoState) (result : String) :
    oval_definitions.statesLoop ss result
      = result ++ String.join (ss.map fun s => "States: " ++ s.String ++ "\n") := by
  induction ss generalizing result with
  | nil => simp [oval_definitions.statesLoop, String.join]
  | cons t rest ih =>
    simp only [oval_definitions.statesLoop, ih, List.map_cons, join_cons, String.append_assoc]

theorem objectsLoop_eq (bs : List rpmInfoObject) (result : String) :
    oval_definitions.objectsLoop bs result
      = result ++ String.join (bs.map fun b => "Objects: " ++ b.String ++ "\n") := by
  induction bs generalizing result with
  | nil => simp [oval_definitions.objectsLoop, String.join]
  | cons t rest ih =>
    simp only [oval_definitions.objectsLoop, ih, List.map_cons, join_cons, String.append_assoc]

/-- The sections of `oval_definitions.String`, each the concatenation of one
entry per element of the list it renders. -/
theorem String_sections (o : oval_definitions) :
    o.String = "++ Generator\n" ++ o.Generator.String ++ "\n\n"
      ++ String.join (o.Definitions.map fun d =>
          "Metadata:Title: " ++ d.Metadata.Title ++ "\n"
            ++ "Metadata:Description: " ++ d.Metadata.Description ++ "\n"
            ++ String.join (d.Metadata.References.map fun r =>
                "Reference:source: " ++ r.Source ++ "\n" ++ "Reference:url: " ++ r.URI ++ "\n")
            ++ d.Criteria.String)
      ++ "\n"
      ++ String.join (o.RPMInfoTests.map fun t => "Tests: " ++ t.String ++ "\n")
      ++ String.join (o.RPMInfoState.map fun s => "States: " ++ s.String ++ "\n")
      ++ String.join (o.RPMInfoObjects.map fun b => "Objects: " ++ b.String ++ "\n") := by
  simp only [oval_definitions.String, definitionsLoop_eq, testsLoop_eq, statesLoop_eq,
    objectsLoop_eq, String.append_assoc, String.empty_append]

/-- C2: `oval_definitions.String` renders every definition, in the order of
`Definitions`: the generator header, then for each definition its title line,
its description line, a source line and a url line per reference and its
criteria rendering, then a blank line, then one entry per test, per state and
per object, each in list order. -/
theorem oval_definitions_String_every_definition (o : oval_definitions) :
    o.String = "++ Generator\n" ++ o.Generator.String ++ "\n\n"
      ++ String.join (o.Definitions.map fun d =>
          "Metadata:Title: " ++ d.Metadata.Title ++ "\n"
            ++ "Metadata:Description: " ++ d.Metadata.Description ++ "\n"
            ++ String.join (d.Metadata.References.map fun r =>
                "Reference:source: " ++ r.Source ++ "\n" ++ "Reference:url: " ++ r.URI ++ "\n")
            ++ d.Criteria.String)
      ++ "\n"
      ++ String.join (o.RPMInfoTests.map fun t => "Tests: " ++ t.String ++ "\n")
      ++ String.join (o.RPMInfoState.map fun s => "States: " ++ s.String ++ "\n")
      ++ String.join (o.RPMInfoObjects.map fun b => "Objects: " ++ b.String ++ "\n") :=
  String_sections o

/-! ## Occurrences -/

theorem occurs_iff (x s : String) : Occurs x s ↔ ∃ a b : String, s = a ++ x ++ b := by
  constructor
  · rintro ⟨a, b, h⟩
    exact ⟨⟨a⟩, ⟨b⟩, String.ext (by simp [String.data_append, h])⟩
  · rintro ⟨a, b, rfl⟩
    exact ⟨a.data, b.data, by simp [String.data_append]⟩

theorem occurs_refl (x : String) : Occurs x x :=
  (occurs_iff x x).2 ⟨"", "", by simp⟩

theorem occurs_append_left {x s : String} (t : String) (h : Occurs x s) : Occurs x (s ++ t) := by
  obtain ⟨a, b, rfl⟩ := (occurs_iff x s).1 h
  exact (occurs_iff _ _).2 ⟨a, b ++ t, by simp [String.append_assoc]⟩

theorem occurs_append_right {x t : String} (s : String) (h : Occurs x t) : Occurs x (s ++ t) := by
  obtain ⟨a, b, rfl⟩ := (occurs_iff x t).1 h
  exact (occurs_iff _ _).2 ⟨s ++ a, b, by simp [String.append_assoc]⟩

theorem occurs_trans {x y z : String} (h₁ : Occurs x y) (h₂ : Occurs y z) : Occurs x z := by
  obtain ⟨a, b, rfl⟩ := (occurs_iff x y).1 h₁
  obtain ⟨c, d, rfl⟩ := (occurs_iff _ z).1 h₂
  exact (occurs_iff _ _).2 ⟨c ++ a, b ++ d, by simp [String.append_assoc]⟩

theorem occurs_join {s : String} {l : List String} (h : s ∈ l) : Occurs s (String.join l) := by
  induction l with
  | nil => simp at h
  | cons a rest ih =>
    rw [join_cons]
    rcases List.mem_cons.1 h with rfl | h
    · exact occurs_append_left _ (occurs_refl _)
    · exact occurs_append_right _ (ih h)

/-! ## Nodes and leaves in the rendering of a tree -/

mutual
theorem nodes_occurs : ∀ (c n : criteria), n ∈ c.nodes → Occurs n.String c.String
  | .mk op cs crs, n, h => by
    simp only [criteria.nodes, List.mem_cons] at h
    rcases h with rfl | h
    · exact occurs_refl _
    · obtain ⟨c, hc, ho⟩ := nodesList_occurs cs n h
      refine occurs_trans ho ?_
      rw [String_node (.mk op cs crs)]
      exact occurs_append_right _ (occurs_join (List.mem_map_of_mem _ hc))
theorem nodesList_occurs : ∀ (cs : List criteria) (n : criteria),
    n ∈ criteria.nodesList cs → ∃ c ∈ cs, Occurs n.String c.String
  | [], _, h => by simp [criteria.nodesList] at h
  | c :: rest, n, h => by
    simp only [criteria.nodesList, List.mem_append] at h
    rcases h with h | h
    · exact ⟨c, List.mem_cons_self _ _, nodes_occurs c n h⟩
    · obtain ⟨d, hd, ho⟩ := nodesList_occurs rest n h
      exact ⟨d, List.mem_cons_of_mem _ hd, ho⟩
end

theorem operator_occurs {c n : criteria} (h : n ∈ c.nodes) :
    Occurs ("Criteria operator: " ++ n.Operator) c.String := by
  refine occurs_trans ?_ (nodes_occurs c n h)
  rw [String_node n]
  exact occurs_append_left _ (occurs_append_left _ (occurs_refl _))

theorem leaf_occurs {c : criteria} {cr : criterion} (h : cr ∈ c.leaves) :
    Occurs ("Criterion: " ++ cr.TestRef ++ " " ++ cr.Comment ++ "\n") c.String := by
  obtain ⟨n, hn, hcr⟩ := List.mem_flatMap.1 h
  refine occurs_trans ?_ (nodes_occurs c n hn)
  rw [String_node n]
  refine occurs_append_left _ (occurs_append_right _ (occurs_join ?_))
  exact List.mem_map.2 ⟨cr, hcr, rfl⟩

/-! ## Entries in the rendering of a document -/

theorem definition_occurs {o : oval_definitions} {d : definition} (h : d ∈ o.Definitions) :
    Occurs d.Criteria.String o.String := by
  rw [String_sections o]
  refine occurs_append_left _ (occurs_append_left _ (occurs_append_left _
    (occurs_append_left _ (occurs_append_right _ ?_))))
  refine occurs_trans ?_ (occurs_join (List.mem_map_of_mem _ h))
  exact occurs_append_right _ (occurs_refl _)

theorem test_occurs {o : oval_definitions} {t : rpmInfoTest} (h : t ∈ o.RPMInfoTests) :
    Occurs ("Tests: " ++ t.String ++ "\n") o.String := by
  rw [String_sections o]
  refine occurs_append_left _ (occurs_append_left _ (occurs_append_right _ ?_))
  exact occurs_join (List.mem_map.2 ⟨t, h, rfl⟩)

theorem state_occurs {o : oval_definitions} {t : rpmInfoState} (h : t ∈ o.RPMInfoState) :
    Occurs ("States: " ++ t.String ++ "\n") o.String := by
  rw [String_sections o]
  refine occurs_append_left _ (occurs_append_right _ ?_)
  exact occurs_join (List.mem_map.2 ⟨t, h, rfl⟩)

theorem object_occurs {o : oval_definitions} {t : rpmInfoObject} (h : t ∈ o.RPMInfoObjects) :
    Occurs ("Objects: " ++ t.String ++ "\n") o.String := by
  rw [String_sections o]
  refine occurs_append_right _ ?_
  exact occurs_join (List.mem_map.2 ⟨t, h, rfl⟩)

theorem refs_occurs (t : rpmInfoTest) :
    Occurs ("ObjectRef: " ++ t.ObjectRef.Id ++ "\n" ++ "SateRef: " ++ t.StateRef.Id ++ "\n")
      t.String := by
  refine (occurs_iff _ _).2 ⟨"Id : " ++ t.Id ++ "\n" ++ "Version: " ++ t.Version ++ "\n"
    ++ "Comment: " ++ t.Comment ++ "\n" ++ "Check: " ++ t.Check ++ "\n", "", ?_⟩
  simp only [rpmInfoTest.String, String.append_assoc, String.empty_append, String.append_empty]

/-! ## Runs of `main` -/

/-- With two arguments, a file that opens and reads, and bytes that unmarshal
without error, `main` prints the rendering and returns. -/
theorem main_rendered (w : World) (Args : List String) (file : String) (xmlFile : File)
    (data : Bytes) (o : oval_definitions) (ha : getArgs Args = (file, none))
    (ho : w.Open file = .ok xmlFile) (hr : w.ReadAll xmlFile = (data, none))
    (hu : w.Unmarshal data = (o, none)) : main w Args = renderedRun file o := by
  simp only [main, ha, ho, hr, hu, renderedRun, List.singleton_append]

/-- The rendering of a test: its six lines, the two references as the
identifiers they are. -/
theorem rpmInfoTest_String_lines (t : rpmInfoTest) :
    t.String = "Id : " ++ t.Id ++ "\n" ++ "Version: " ++ t.Version ++ "\n"
      ++ "Comment: " ++ t.Comment ++ "\n" ++ "Check: " ++ t.Check ++ "\n"
      ++ "ObjectRef: " ++ t.ObjectRef.Id ++ "\n" ++ "SateRef: " ++ t.StateRef.Id ++ "\n" := by
  simp only [rpmInfoTest.String, String.append_assoc, String.empty_append]

/-- The sections of `oval_definitions.String` with the lines of each test
written out. -/
theorem String_sections_tests (o : oval_definitions) :
    o.String = "++ Generator\n" ++ o.Generator.String ++ "\n\n"
      ++ String.join (o.Definitions.map fun d =>
          "Metadata:Title: " ++ d.Metadata.Title ++ "\n"
            ++ "Metadata:Description: " ++ d.Metadata.Description ++ "\n"
            ++ String.join (d.Metadata.References.map fun r =>
                "Reference:source: " ++ r.Source ++ "\n" ++ "Reference:url: " ++ r.URI ++ "\n")
            ++ d.Criteria.String)
      ++ "\n"
      ++ String.join (o.RPMInfoTests.map fun t =>
          "Tests: "
            ++ ("Id : " ++ t.Id ++ "\n" ++ "Version: " ++ t.Version ++ "\n"
                ++ "Comment: " ++ t.Comment ++ "\n" ++ "Check: " ++ t.Check ++ "\n"
                ++ "ObjectRef: " ++ t.ObjectRef.Id ++ "\n"
                ++ "SateRef: " ++ t.StateRef.Id ++ "\n")
            ++ "\n")
      ++ String.join (o.RPMInfoState.map fun s => "States: " ++ s.String ++ "\n")
      ++ String.join (o.RPMInfoObjects.map fun b => "Objects: " ++ b.String ++ "\n") := by
  rw [String_sections o]
  simp only [rpmInfoTest_String_lines]

theorem mem_nodes_self (c : criteria) : c ∈ c.nodes := by
  cases c with
  | mk op cs crs => simp [criteria.nodes]

/-! ## C3: dangling references -/

/-- C3, counterexample: the document `docDangling` has a dangling reference
(`tst:99`, with no test in the document), yet the run on it reports no error:
it prints the announcement and the rendering, writes nothing to standard
error and returns with exit status 0; the rendering shows `tst:99` like any
other reference. -/
theorem dangling_reference_not_reported :
    docDangling.hasDanglingReference = true
    ∧ main (worldOf docDangling) ["oval", "f.xml"]
        = { stdout := ["Parsing file  f.xml\n", docDangling.String ++ "\n"], stderr := [],
            termination := .returned }
    ∧ (main (worldOf docDangling) ["oval", "f.xml"]).termination.exitStatus = 0
    ∧ docDangling.String
        = "++ Generator\nProduct name: \nProduct Version \nSchema Version \nTimestamp \nOther \n\n"
          ++ "Metadata:Title: CVE-1\nMetadata:Description: \n"
          ++ "Criteria operator: ANDCriterion: tst:99 gone\n\n" := by
  decide

/-- C3, amended: for a document with a dangling reference, the run reports no
error: with two arguments, a file that opens and reads and bytes that
unmarshal to the document, `main` prints the rendering and returns.  The
rendering is exactly the header, the block of each definition, a blank line
and the entries of the tests, states and objects, where every test is its six
lines with `ObjectRef: ` and `SateRef: ` followed by the identifiers as they
are, and every criteria node of the document is its operator line, then
`Criterion: `, the `test_ref` as it is, a blank, the comment and a newline for
each criterion, then the renderings of its sub-criteria: nothing is looked up
and nothing stands in for a reference.  In particular the entry of every
criterion and the reference lines of every test occur in the rendering. -/
theorem dangling_reference_rendered_verbatim (w : World) (Args : List String) (file : String)
    (xmlFile : File) (data : Bytes) (o : oval_definitions)
    (_hd : o.hasDanglingReference = true) (ha : getArgs Args = (file, none))
    (ho : w.Open file = .ok xmlFile) (hr : w.ReadAll xmlFile = (data, none))
    (hu : w.Unmarshal data = (o, none)) :
    main w Args = renderedRun file o
    ∧ o.String = "++ Generator\n" ++ o.Generator.String ++ "\n\n"
        ++ String.join (o.Definitions.map fun d =>
            "Metadata:Title: " ++ d.Metadata.Title ++ "\n"
              ++ "Metadata:Description: " ++ d.Metadata.Description ++ "\n"
              ++ String.join (d.Metadata.References.map fun r =>
                  "Reference:source: " ++ r.Source ++ "\n"
                    ++ "Reference:url: " ++ r.URI ++ "\n")
              ++ d.Criteria.String)
        ++ "\n"
        ++ String.join (o.RPMInfoTests.map fun t =>
            "Tests: "
              ++ ("Id : " ++ t.Id ++ "\n" ++ "Version: " ++ t.Version ++ "\n"
                  ++ "Comment: " ++ t.Comment ++ "\n" ++ "Check: " ++ t.Check ++ "\n"
                  ++ "ObjectRef: " ++ t.ObjectRef.Id ++ "\n"
                  ++ "SateRef: " ++ t.StateRef.Id ++ "\n")
              ++ "\n")
        ++ String.join (o.RPMInfoState.map fun s => "States: " ++ s.String ++ "\n")
        ++ String.join (o.RPMInfoObjects.map fun b => "Objects: " ++ b.String ++ "\n")
    ∧ (∀ n ∈ o.nodes,
        n.String = "Criteria operator: " ++ n.Operator
          ++ String.join (n.Criterions.map fun cr =>
              "Criterion: " ++ cr.TestRef ++ " " ++ cr.Comment ++ "\n")
          ++ String.join (n.Criterias.map criteria.String))
    ∧ (∀ cr ∈ o.leaves,
        Occurs ("Criterion: " ++ cr.TestRef ++ " " ++ cr.Comment ++ "\n") o.String)
    ∧ (∀ t ∈ o.RPMInfoTests,
        Occurs ("ObjectRef: " ++ t.ObjectRef.Id ++ "\n" ++ "SateRef: " ++ t.StateRef.Id ++ "\n")
          o.String) := by
  refine ⟨main_rendered w Args file xmlFile data o ha ho hr hu, String_sections_tests o,
    fun n _ => String_node n, ?_, ?_⟩
  · intro cr hcr
    obtain ⟨d, hdm, hl⟩ := List.mem_flatMap.1 hcr
    exact occurs_trans (leaf_occurs hl) (definition_occurs hdm)
  · intro t ht
    exact occurs_trans (refs_occurs t)
      (occurs_trans (occurs_append_left _ (occurs_append_right _ (occurs_refl _)))
        (test_occurs ht))

/-- C3, witness: the amended statement at `docDanglingTest`, whose criterion
and whose test both have dangling references; its rendering shows `tst:99`,
`obj:9` and `ste:9` as they are. -/
theorem dangling_reference_rendered_verbatim_witness :
    docDanglingTest.hasDanglingReference = true
    ∧ docDanglingTest.String
        = "++ Generator\nProduct name: \nProduct Version \nSchema Version \nTimestamp \nOther \n\n"
          ++ "Metadata:Title: CVE-1\nMetadata:Description: \n"
          ++ "Criteria operator: ANDCriterion: tst:99 gone\n\n"
          ++ "Tests: Id : tst:1\nVersion: 1\nComment: t\nCheck: all\n"
          ++ "ObjectRef: obj:9\nSateRef: ste:9\n\n"
    ∧ (main (worldOf docDanglingTest) ["oval", "f.xml"] = renderedRun "f.xml" docDanglingTest
      ∧ docDanglingTest.String = "++ Generator\n" ++ docDanglingTest.Generator.String ++ "\n\n"
          ++ String.join (docDanglingTest.Definitions.map fun d =>
              "Metadata:Title: " ++ d.Metadata.Title ++ "\n"
                ++ "Metadata:Description: " ++ d.Metadata.Description ++ "\n"
                ++ String.join (d.Metadata.References.map fun r =>
                    "Reference:source: " ++ r.Source ++ "\n"
                      ++ "Reference:url: " ++ r.URI ++ "\n")
                ++ d.Criteria.String)
          ++ "\n"
          ++ String.join (docDanglingTest.RPMInfoTests.map fun t =>
              "Tests: "
                ++ ("Id : " ++ t.Id ++ "\n" ++ "Version: " ++ t.Version ++ "\n"
                    ++ "Comment: " ++ t.Comment ++ "\n" ++ "Check: " ++ t.Check ++ "\n"
                    ++ "ObjectRef: " ++ t.ObjectRef.Id ++ "\n"
                    ++ "SateRef: " ++ t.StateRef.Id ++ "\n")
                ++ "\n")
          ++ String.join (docDanglingTest.RPMInfoState.map fun s =>
              "States: " ++ s.String ++ "\n")
          ++ String.join (docDanglingTest.RPMInfoObjects.map fun b =>
              "Objects: " ++ b.String ++ "\n")
      ∧ (∀ n ∈ docDanglingTest.nodes,
          n.String = "Criteria operator: " ++ n.Operator
            ++ String.join (n.Criterions.map fun cr =>
                "Criterion: " ++ cr.TestRef ++ " " ++ cr.Comment ++ "\n")
            ++ String.join (n.Criterias.map criteria.String))
      ∧ (∀ cr ∈ docDanglingTest.leaves,
          Occurs ("Criterion: " ++ cr.TestRef ++ " " ++ cr.Comment ++ "\n")
            docDanglingTest.String)
      ∧ (∀ t ∈ docDanglingTest.RPMInfoTests,
          Occurs
            ("ObjectRef: " ++ t.ObjectRef.Id ++ "\n" ++ "SateRef: " ++ t.StateRef.Id ++ "\n")
            docDanglingTest.String)) :=
  ⟨by decide, by decide,
    dangling_reference_rendered_verbatim (worldOf docDanglingTest) ["oval", "f.xml"]
      "f.xml" 3 [] docDanglingTest (by decide) (by decide) rfl rfl rfl⟩

/-! ## C4: duplicate identifiers -/

/-- C4, counterexample: the document `docDuplicate` has two states with the id
`ste:1`, yet the run on it reports no error: it prints the announcement and the
rendering, writes nothing to standard error and returns with exit status 0;
the rendering keeps both states. -/
theorem duplicate_identifier_not_reported :
    docDuplicate.hasDuplicateIdentifier = true
    ∧ main (worldOf docDuplicate) ["oval", "f.xml"]
        = { stdout := ["Parsing file  f.xml\n", docDuplicate.String ++ "\n"], stderr := [],
            termination := .returned }
    ∧ (main (worldOf docDuplicate) ["oval", "f.xml"]).termination.exitStatus = 0
    ∧ docDuplicate.String
        = "++ Generator\nProduct name: \nProduct Version \nSchema Version \nTimestamp \nOther \n\n\n"
          ++ "States: Id: ste:1 Version: 1\nEvr:   \nVersion:  \n"
          ++ "States: Id: ste:1 Version: 2\nEvr:   \nVersion:  \n" := by
  decide

/-- C4, amended: for a document in which two tests, two objects or two states
carry the same id, the run reports no error: with two arguments, a file that
opens and reads and bytes that unmarshal to the document, `main` prints the
rendering and returns; the rendering ends with one entry per test, per state
and per object, in list order, so every entry with a repeated id is kept. -/
theorem duplicate_identifier_all_kept (w : World) (Args : List String) (file : String)
    (xmlFile : File) (data : Bytes) (o : oval_definitions)
    (_hd : o.hasDuplicateIdentifier = true) (ha : getArgs Args = (file, none))
    (ho : w.Open file = .ok xmlFile) (hr : w.ReadAll xmlFile = (data, none))
    (hu : w.Unmarshal data = (o, none)) :
    main w Args = renderedRun file o
    ∧ ∃ head : String,
        o.String = head
          ++ String.join (o.RPMInfoTests.map fun t => "Tests: " ++ t.String ++ "\n")
          ++ String.join (o.RPMInfoState.map fun s => "States: " ++ s.String ++ "\n")
          ++ String.join (o.RPMInfoObjects.map fun b => "Objects: " ++ b.String ++ "\n") :=
  ⟨main_rendered w Args file xmlFile data o ha ho hr hu, _, String_sections o⟩

/-- C4, witness: the amended statement at `docDuplicate`. -/
theorem duplicate_identifier_all_kept_witness :
    docDuplicate.hasDuplicateIdentifier = true
    ∧ main (worldOf docDuplicate) ["oval", "f.xml"] = renderedRun "f.xml" docDuplicate
    ∧ ∃ head : String,
        docDuplicate.String = head
          ++ String.join (docDuplicate.RPMInfoTests.map fun t => "Tests: " ++ t.String ++ "\n")
          ++ String.join (docDuplicate.RPMInfoState.map fun s => "States: " ++ s.String ++ "\n")
          ++ String.join
              (docDuplicate.RPMInfoObjects.map fun b => "Objects: " ++ b.String ++ "\n") :=
  ⟨by decide, duplicate_identifier_all_kept (worldOf docDuplicate) ["oval", "f.xml"]
    "f.xml" 3 [] docDuplicate (by decide) (by decide) rfl rfl rfl⟩

/-! ## C5: operators that are missing or unknown -/

/-- C5, counterexample: `nodeAmbiguous` has no operator and holds a node with
the operator `XOR`; both are rendered like any node, and the run on the
document `docAmbiguous` that holds them prints the rendering, writes nothing
to standard error and returns with exit status 0. -/
theorem ambiguous_operator_not_reported :
    nodeAmbiguous.hasAmbiguousOperator = true
    ∧ (criteria.mk "XOR" [] []).hasAmbiguousOperator = true
    ∧ nodeAmbiguous.String = "Criteria operator: Criteria operator: XOR"
    ∧ main (worldOf docAmbiguous) ["oval", "f.xml"]
        = { stdout := ["Parsing file  f.xml\n", docAmbiguous.String ++ "\n"], stderr := [],
            termination := .returned }
    ∧ (main (worldOf docAmbiguous) ["oval", "f.xml"]).termination.exitStatus = 0
    ∧ docAmbiguous.String
        = "++ Generator\nProduct name: \nProduct Version \nSchema Version \nTimestamp \nOther \n\n"
          ++ "Metadata:Title: \nMetadata:Description: \n"
          ++ "Criteria operator: Criteria operator: XOR\n" := by
  decide

/-- C5, amended: for a criteria node whose operator is missing or is neither
`AND` nor `OR`, processing is no error and no operator is guessed:
`criteria.String` renders the node as exactly `Criteria operator: ` followed by
the operator text as it is, then the entry of each criterion, then the
renderings of its sub-criteria, and so for every node below it; a run of
`main` on a document that holds the node at any depth of a definition (two
arguments, a file that opens and reads, bytes that unmarshal to the document)
prints the rendering, in which the rendering of the node occurs, and
returns. -/
theorem ambiguous_operator_passed_through (w : World) (Args : List String) (file : String)
    (xmlFile : File) (data : Bytes) (o : oval_definitions) (c : criteria)
    (_hc : c.hasAmbiguousOperator = true) (hmem : c ∈ o.nodes)
    (ha : getArgs Args = (file, none)) (ho : w.Open file = .ok xmlFile)
    (hr : w.ReadAll xmlFile = (data, none)) (hu : w.Unmarshal data = (o, none)) :
    c.String = "Criteria operator: " ++ c.Operator
        ++ String.join (c.Criterions.map fun cr =>
            "Criterion: " ++ cr.TestRef ++ " " ++ cr.Comment ++ "\n")
        ++ String.join (c.Criterias.map criteria.String)
    ∧ (∀ n ∈ c.nodes,
        n.String = "Criteria operator: " ++ n.Operator
          ++ String.join (n.Criterions.map fun cr =>
              "Criterion: " ++ cr.TestRef ++ " " ++ cr.Comment ++ "\n")
          ++ String.join (n.Criterias.map criteria.String))
    ∧ main w Args = renderedRun file o
    ∧ Occurs c.String o.String := by
  refine ⟨String_node c, fun n _ => String_node n,
    main_rendered w Args file xmlFile data o ha ho hr hu, ?_⟩
  obtain ⟨d, hdm, hn⟩ := List.mem_flatMap.1 hmem
  exact occurs_trans (nodes_occurs _ _ hn) (definition_occurs hdm)

/-- C5, witness: the amended statement at `nodeAmbiguous`, the node of
`docAmbiguous` that has no operator and holds the `XOR` node; it renders as
`Criteria operator: ` with nothing for the operator, followed by the rendering
of the `XOR` node. -/
theorem ambiguous_operator_passed_through_witness :
    nodeAmbiguous.hasAmbiguousOperator = true
    ∧ (criteria.mk "XOR" [] []).hasAmbiguousOperator = true
    ∧ nodeAmbiguous ∈ docAmbiguous.nodes
    ∧ nodeAmbiguous.nodes = [nodeAmbiguous, criteria.mk "XOR" [] []]
    ∧ nodeAmbiguous.String = "Criteria operator: Criteria operator: XOR"
    ∧ (nodeAmbiguous.String = "Criteria operator: " ++ nodeAmbiguous.Operator
          ++ String.join (nodeAmbiguous.Criterions.map fun cr =>
              "Criterion: " ++ cr.TestRef ++ " " ++ cr.Comment ++ "\n")
          ++ String.join (nodeAmbiguous.Criterias.map criteria.String)
      ∧ (∀ n ∈ nodeAmbiguous.nodes,
          n.String = "Criteria operator: " ++ n.Operator
            ++ String.join (n.Criterions.map fun cr =>
                "Criterion: " ++ cr.TestRef ++ " " ++ cr.Comment ++ "\n")
            ++ String.join (n.Criterias.map criteria.String))
      ∧ main (worldOf docAmbiguous) ["oval", "f.xml"] = renderedRun "f.xml" docAmbiguous
      ∧ Occurs nodeAmbiguous.String docAmbiguous.String) :=
  ⟨by decide, by decide,
    by simp [docAmbiguous, nodeAmbiguous, oval_definitions.nodes, criteria.nodes,
      criteria.nodesList],
    by simp [nodeAmbiguous, criteria.nodes, criteria.nodesList],
    by decide,
    ambiguous_operator_passed_through (worldOf docAmbiguous) ["oval", "f.xml"] "f.xml" 3 []
      docAmbiguous nodeAmbiguous (by decide)
      (by simp [docAmbiguous, nodeAmbiguous, oval_definitions.nodes, criteria.nodes,
        criteria.nodesList])
      (by decide) rfl rfl rfl⟩

/-! ## C6: the empty document -/

/-- C6: the empty document renders without error as the generator header and
blank lines only: the rendering is the header with empty fields followed by
three newlines, none of the texts `Metadata:`, `Criteria operator:`, `Tests:`,
`States:`, `Objects:` occurs in it, and the run of `main` on it prints it and
returns with exit status 0. -/
theorem empty_document_renders_empty_report :
    docEmpty.String
      = "++ Generator\nProduct name: \nProduct Version \nSchema Version \nTimestamp \nOther \n\n\n"
    ∧ ¬ Occurs "Metadata:" docEmpty.String
    ∧ ¬ Occurs "Criteria operator:" docEmpty.String
    ∧ ¬ Occurs "Tests:" docEmpty.String
    ∧ ¬ Occurs "States:" docEmpty.String
    ∧ ¬ Occurs "Objects:" docEmpty.String
    ∧ main (worldOf docEmpty) ["oval", "empty.xml"]
        = { stdout := ["Parsing file  empty.xml\n", docEmpty.String ++ "\n"], stderr := [],
            termination := .returned }
    ∧ (main (worldOf docEmpty) ["oval", "empty.xml"]).termination.exitStatus = 0 := by
  decide

/-! ## C7: termination of `criteria.String` -/

theorem size_lt_of_mem {child : criteria} {cs : List criteria} (h : child ∈ cs) :
    child.size ≤ criteria.sizeList cs := by
  induction cs with
  | nil => simp at h
  | cons c rest ih =>
    simp only [criteria.sizeList]
    rcases List.mem_cons.1 h with rfl | h
    · omega
    · have := ih h
      omega

mutual
theorem StringFuel_eq : ∀ (c : criteria) (fuel : Nat), c.depth ≤ fuel →
    criteria.StringFuel fuel c = some c.String
  | .mk op cs crs, 0, h => by
    simp only [criteria.depth] at h
    omega
  | .mk op cs crs, fuel + 1, h => by
    simp only [criteria.depth] at h
    simp only [criteria.StringFuel, criteria.String]
    exact criteriasLoopFuel_eq cs fuel _ (by omega)
theorem criteriasLoopFuel_eq : ∀ (cs : List criteria) (fuel : Nat) (result : String),
    criteria.depthList cs ≤ fuel →
    criteria.criteriasLoopFuel (criteria.StringFuel fuel) cs result
      = some (criteria.criteriasLoop cs result)
  | [], _, _, _ => by simp only [criteria.criteriasLoopFuel, criteria.criteriasLoop]
  | c :: rest, fuel, result, h => by
    simp only [criteria.depthList] at h
    simp only [criteria.criteriasLoopFuel, criteria.criteriasLoop,
      StringFuel_eq c fuel (by omega)]
    exact criteriasLoopFuel_eq rest fuel _ (by omega)
end

/-- C7: `criteria.String` is total on every finite criteria tree: each
recursive call is on a sub-criteria with strictly fewer nodes than the node
itself, and the method run with a call stack of at least the depth of the tree
returns the rendering, whatever the depth and the number of sub-criteria and
criterions of each node. -/
theorem criteria_String_total (c : criteria) :
    (∀ child ∈ c.Criterias, child.size < c.size)
    ∧ (∀ fuel : Nat, c.depth ≤ fuel → criteria.StringFuel fuel c = some c.String) := by
  refine ⟨?_, StringFuel_eq c⟩
  intro child h
  cases c with
  | mk op cs crs =>
    have := @size_lt_of_mem child cs h
    simp only [criteria.size]
    omega

/-! ## C8: determinism -/

mutual
theorem StringAt_eq (m : Memory) : ∀ (t : criteria) (cell : criteriaCell) (fuel : Nat),
    storesTree m t cell = true → t.depth ≤ fuel → cell.StringAt m fuel = some t.String
  | .mk op cs crs, cell, 0, _, h => by
    simp only [criteria.depth] at h
    omega
  | .mk op cs crs, cell, fuel + 1, hs, h => by
    simp only [criteria.depth] at h
    simp only [storesTree, Bool.and_eq_true, decide_eq_true_eq] at hs
    obtain ⟨⟨hop, hcr⟩, hcs⟩ := hs
    simp only [criteriaCell.StringAt, criteria.String, hop, hcr]
    exact criteriasLoopAt_eq m cs cell.Criterias fuel _ hcs (by omega)
theorem criteriasLoopAt_eq (m : Memory) : ∀ (ts : List criteria) (ps : List Pointer)
    (fuel : Nat) (result : String), storesTrees m ts ps = true → criteria.depthList ts ≤ fuel →
    criteriasLoopAt
        (fun p =>
          match m p with
          | none => none
          | some child => criteriaCell.StringAt m fuel child)
        ps result
      = some (criteria.criteriasLoop ts result)
  | [], [], _, _, _, _ => by simp only [criteriasLoopAt, criteria.criteriasLoop]
  | [], _ :: _, _, _, hs, _ => by simp [storesTrees] at hs
  | _ :: _, [], _, _, hs, _ => by simp [storesTrees] at hs
  | c :: cs, p :: ps, fuel, result, hs, h => by
    simp only [criteria.depthList] at h
    simp only [storesTrees, Bool.and_eq_true] at hs
    obtain ⟨hp, hps⟩ := hs
    cases hm : m p with
    | none => simp [hm] at hp
    | some cell =>
      rw [hm] at hp
      simp only [criteriasLoopAt, criteria.criteriasLoop, hm,
        StringAt_eq m c cell fuel hp (by omega)]
      exact criteriasLoopAt_eq m cs ps fuel _ hps (by omega)
end

theorem definitionsLoopAt_eq (m : Memory) (fuel : Nat) :
    ∀ (ds : List definition) (es : List definitionCell) (result : String),
    storesDefinitions m ds es = true →
    criteria.depthList (ds.map fun d => d.Criteria) ≤ fuel →
    definitionsLoopAt m fuel es result = some (oval_definitions.definitionsLoop ds result)
  | [], [], _, _, _ => by simp only [definitionsLoopAt, oval_definitions.definitionsLoop]
  | [], _ :: _, _, hs, _ => by simp [storesDefinitions] at hs
  | _ :: _, [], _, hs, _ => by simp [storesDefinitions] at hs
  | d :: ds, e :: es, result, hs, h => by
    simp only [List.map_cons, criteria.depthList] at h
    simp only [storesDefinitions, Bool.and_eq_true, decide_eq_true_eq] at hs
    obtain ⟨⟨hmeta, htree⟩, hrest⟩ := hs
    simp only [definitionsLoopAt, oval_definitions.definitionsLoop, hmeta,
      StringAt_eq m d.Criteria e.Criteria fuel htree (by omega)]
    exact definitionsLoopAt_eq m fuel ds es _ hrest (by omega)

/-- A document in memory with the content `o` renders as `o.String`, wherever
its sub-criteria lie. -/
theorem documentCell_StringAt_eq (m : Memory) (fuel : Nat) (o : oval_definitions)
    (c : documentCell) (hs : storesDocument m o c = true) (h : o.depth ≤ fuel) :
    c.StringAt m fuel = some o.String := by
  simp only [storesDocument, Bool.and_eq_true, decide_eq_true_eq] at hs
  obtain ⟨⟨⟨⟨hg, hd⟩, ht⟩, hb⟩, hst⟩ := hs
  simp only [documentCell.StringAt, oval_definitions.String, hg, ht, hb, hst,
    definitionsLoopAt_eq m fuel o.Definitions c.Definitions _ hd h]

/-- C8: rendering is deterministic: two documents in memory with equal content
(the same generator, the same definitions, tests, objects and states in the
same order), whatever the addresses their sub-criteria lie at and whatever
else the two memories hold, have the same rendering, and it is the rendering
`oval_definitions.String` of that content; the call stack needs no more than
the depth of the deepest criteria tree. -/
theorem oval_definitions_String_content_only (o : oval_definitions) (m₁ m₂ : Memory)
    (c₁ c₂ : documentCell) (fuel : Nat) (h₁ : storesDocument m₁ o c₁ = true)
    (h₂ : storesDocument m₂ o c₂ = true) (hf : o.depth ≤ fuel) :
    c₁.StringAt m₁ fuel = c₂.StringAt m₂ fuel
    ∧ c₁.StringAt m₁ fuel = some o.String
    ∧ c₂.StringAt m₂ fuel = some o.String := by
  have e₁ := documentCell_StringAt_eq m₁ fuel o c₁ h₁ hf
  have e₂ := documentCell_StringAt_eq m₂ fuel o c₂ h₂ hf
  exact ⟨e₁.trans e₂.symm, e₁, e₂⟩

/-- C8, witness: the document `docAmbiguous` stored with its `XOR` node at
address 1 of one memory and at address 4096 of another, which holds a
different struct at address 1: both render as `docAmbiguous.String`, while the
second document read in the first memory, where its pointer leads nowhere,
has no rendering. -/
theorem oval_definitions_String_content_only_witness :
    storesDocument memoryLow docAmbiguous cellLow = true
    ∧ storesDocument memoryHigh docAmbiguous cellHigh = true
    ∧ cellLow ≠ cellHigh
    ∧ cellHigh.StringAt memoryLow 2 = none
    ∧ (cellLow.StringAt memoryLow 2 = cellHigh.StringAt memoryHigh 2
      ∧ cellLow.StringAt memoryLow 2 = some docAmbiguous.String
      ∧ cellHigh.StringAt memoryHigh 2 = some docAmbiguous.String) :=
  ⟨by decide, by decide, by decide, by decide,
    oval_definitions_String_content_only docAmbiguous memoryLow memoryHigh cellLow cellHigh 2
      (by decide) (by decide) (by decide)⟩

/-! ## C9: the argument vector -/

/-- C9: `getArgs` returns the error `wrong # of arguments` if and only if the
argument vector, program name included, has not exactly two elements, and then
the file name is empty; with exactly two elements it returns the second as the
file name and no error. -/
theorem getArgs_one_positional_argument (Args : List String) :
    ((getArgs Args).2.map myError.Error = some "wrong # of arguments" ↔ Args.length ≠ 2)
    ∧ (getArgs Args = ("", some { Message := "wrong # of arguments" }) ↔ Args.length ≠ 2)
    ∧ (∀ h : Args.length = 2, getArgs Args = (Args.get ⟨1, by omega⟩, none)) := by
  unfold getArgs
  by_cases h : Args.length ≠ 2
  · simp [h, myError.Error]
  · simp [h]

/-! ## C10: exit status -/

/-- C10, the code at the failing inputs: when the file cannot be opened, and
when the bytes do not unmarshal, `main` prints a message and returns, so the
process ends with exit status 0, the status of a run that rendered a
document; only a wrong argument count and a failed read end it with another
status. -/
theorem main_failure_exit_status_zero :
    main worldOpenFails ["oval", "missing.xml"]
      = { stdout := ["Parsing file  missing.xml\n",
                     "Error opening file: open missing.xml: no such file or directory\n"],
          stderr := [], termination := .returned }
    ∧ (main worldOpenFails ["oval", "missing.xml"]).termination.exitStatus = 0
    ∧ main worldUnmarshalFails ["oval", "broken.xml"]
      = { stdout := ["Parsing file  broken.xml\n", "Error unmarshalling EOF\n"],
          stderr := [], termination := .returned }
    ∧ (main worldUnmarshalFails ["oval", "broken.xml"]).termination.exitStatus = 0
    ∧ (main (worldOf docEmpty) ["oval", "empty.xml"]).termination.exitStatus = 0
    ∧ (main worldReadFails ["oval", "f.xml"]).termination.exitStatus = 1
    ∧ (main (worldOf docEmpty) ["oval"]).termination.exitStatus = 255
    ∧ (main (worldOf docEmpty) []).termination.exitStatus = 2 := by
  decide

/-! ## C12: the operator is passed through -/

/-- C12: for every criteria node and every operator text, `criteria.String`
returns (the run with a call stack of the depth of the tree yields the
rendering) and passes the operator through as it is: the rendering is
`Criteria operator: ` followed by the operator, followed by a rest that is the
same for every operator text. -/
theorem criteria_String_operator_uninterpreted (cs : List criteria) (crs : List criterion) :
    ∃ rest : String, ∀ op : String,
      (criteria.mk op cs crs).String = "Criteria operator: " ++ op ++ rest
      ∧ criteria.StringFuel (criteria.mk op cs crs).depth (criteria.mk op cs crs)
          = some ("Criteria operator: " ++ op ++ rest) := by
  refine ⟨String.join (crs.map fun cr =>
      "Criterion: " ++ cr.TestRef ++ " " ++ cr.Comment ++ "\n")
    ++ String.join (cs.map criteria.String), fun op => ?_⟩
  have h : (criteria.mk op cs crs).String = "Criteria operator: " ++ op
      ++ (String.join (crs.map fun cr =>
            "Criterion: " ++ cr.TestRef ++ " " ++ cr.Comment ++ "\n")
          ++ String.join (cs.map criteria.String)) := by
    rw [String_node (.mk op cs crs)]
    simp only [criteria.Operator, criteria.Criterions, criteria.Criterias, String.append_assoc]
  exact ⟨h, by rw [StringFuel_eq _ _ (Nat.le_refl _), h]⟩

/-! ## C13: fields that are parsed and never printed -/

theorem definition_block_printed (d : definition) :
    "Metadata:Title: " ++ d.printed.Metadata.Title ++ "\n"
      ++ "Metadata:Description: " ++ d.printed.Metadata.Description ++ "\n"
      ++ String.join (d.printed.Metadata.References.map fun r =>
          "Reference:source: " ++ r.Source ++ "\n" ++ "Reference:url: " ++ r.URI ++ "\n")
      ++ d.printed.Criteria.String
    = "Metadata:Title: " ++ d.Metadata.Title ++ "\n"
      ++ "Metadata:Description: " ++ d.Metadata.Description ++ "\n"
      ++ String.join (d.Metadata.References.map fun r =>
          "Reference:source: " ++ r.Source ++ "\n" ++ "Reference:url: " ++ r.URI ++ "\n")
      ++ d.Criteria.String := by
  simp only [definition.printed, metadata.printed, List.map_map]
  rfl

theorem String_printed (o : oval_definitions) : o.printed.String = o.String := by
  rw [String_sections o.printed, String_sections o]
  simp only [oval_definitions.printed, List.map_map]
  congr 6
  apply List.map_congr_left
  intro d _
  exact definition_block_printed d

/-- C13: the rendering ignores the fields that are parsed and never printed:
two documents that are equal once the advisory block of every definition and
the `RefId` of every reference are blanked have the same rendering. -/
theorem oval_definitions_String_ignores_unprinted (o₁ o₂ : oval_definitions)
    (h : o₁.printed = o₂.printed) : o₁.String = o₂.String := by
  rw [← String_printed o₁, ← String_printed o₂, h]

/-- C13, witness: `docAdvisoryRedHat` and `docAdvisoryOther` differ in the
advisory and in the `RefId` only, and render the same. -/
theorem oval_definitions_String_ignores_unprinted_witness :
    docAdvisoryRedHat.printed = docAdvisoryOther.printed
    ∧ docAdvisoryRedHat.String = docAdvisoryOther.String :=
  ⟨rfl, oval_definitions_String_ignores_unprinted docAdvisoryRedHat docAdvisoryOther rfl⟩

/-! ## C14: the rendering does not determine the tree -/

/-- C14: `criteria.String` is not injective: the node `X` holding the node `Y`
and the single node with the operator `XCriteria operator: Y` have a different
number of nodes and the same rendering, and a node with the leaf (`a b`, `c`)
renders as the node with the leaf (`a`, `b c`), whatever the operator. -/
theorem criteria_String_not_injective :
    (criteria.mk "X" [.mk "Y" [] []] []).String
        = (criteria.mk "XCriteria operator: Y" [] []).String
    ∧ (criteria.mk "X" [.mk "Y" [] []] []).size = 2
    ∧ (criteria.mk "XCriteria operator: Y" [] []).size = 1
    ∧ criteria.mk "X" [.mk "Y" [] []] [] ≠ criteria.mk "XCriteria operator: Y" [] []
    ∧ ¬ Function.Injective criteria.String
    ∧ (∀ op : String,
        (criteria.mk op [] [{ TestRef := "a b", Comment := "c" }]).String
          = (criteria.mk op [] [{ TestRef := "a", Comment := "b c" }]).String)
    ∧ ({ TestRef := "a b", Comment := "c" } : criterion) ≠ { TestRef := "a", Comment := "b c" } := by
  have hs : (criteria.mk "X" [.mk "Y" [] []] []).String
      = (criteria.mk "XCriteria operator: Y" [] []).String := by decide
  have hne : criteria.mk "X" [.mk "Y" [] []] [] ≠ criteria.mk "XCriteria operator: Y" [] [] := by
    intro h
    have := congrArg criteria.size h
    revert this
    decide
  refine ⟨hs, by decide, by decide, hne, fun hinj => hne (hinj hs), ?_, by decide⟩
  intro op
  simp only [criteria.String, criteria.criterionsLoop, criteria.criteriasLoop]
  congr 1

/-! ## C11: no rendering after a failure -/

theorem getArgs_error {Args : List String} {file : String} {err : myError}
    (h : getArgs Args = (file, some err)) : err = { Message := "wrong # of arguments" } := by
  unfold getArgs at h
  split at h
  · simp only [Prod.mk.injEq, Option.some.injEq] at h
    exact h.2.symm
  · simp at h

/-- Every rendering of a document, with the newline `fmt.Println` adds, starts
with the character `+`. -/
theorem rendering_head (o : oval_definitions) : (o.String ++ "\n").data.head? = some '+' := by
  rw [String_sections o]
  simp only [String.append_assoc, String.data_append]
  rfl

theorem head_append (p t : String) (c : Char) (h : p.data.head? = some c) :
    (p ++ t).data.head? = some c := by
  rw [String.data_append]
  cases hp : p.data with
  | nil => simp [hp] at h
  | cons a rest =>
    rw [hp] at h
    simpa using h

/-- A line that starts with a text whose first character is not `+` is no
rendering of a document. -/
theorem rendering_ne (o : oval_definitions) (p t : String) (c : Char)
    (h : p.data.head? = some c) (hc : c ≠ '+') : o.String ++ "\n" ≠ p ++ t := by
  intro heq
  have h₁ := rendering_head o
  rw [heq, head_append p t c h] at h₁
  exact hc (Option.some.inj h₁)

theorem main_usage (w : World) {Args : List String} {file : String} {err : myError}
    (ha : getArgs Args = (file, some err)) : main w Args = usage_and_exit Args err := by
  simp only [main, ha]

theorem main_open_error (w : World) {Args : List String} {file err : String}
    (ha : getArgs Args = (file, none)) (ho : w.Open file = .error err) :
    main w Args
      = { stdout := ["Parsing file " ++ " " ++ file ++ "\n",
                     "Error opening file:" ++ " " ++ err ++ "\n"],
          stderr := [], termination := .returned } := by
  simp only [main, ha, ho, List.singleton_append]

theorem main_read_error (w : World) {Args : List String} {file err : String} {xmlFile : File}
    {data : Bytes} (ha : getArgs Args = (file, none)) (ho : w.Open file = .ok xmlFile)
    (hr : w.ReadAll xmlFile = (data, some err)) :
    main w Args
      = { stdout := ["Parsing file " ++ " " ++ file ++ "\n"], stderr := [logLine w err],
          termination := .exited 1 } := by
  simp only [main, ha, ho, hr]

theorem main_unmarshal_error (w : World) {Args : List String} {file err : String}
    {xmlFile : File} {data : Bytes} {v : oval_definitions}
    (ha : getArgs Args = (file, none)) (ho : w.Open file = .ok xmlFile)
    (hr : w.ReadAll xmlFile = (data, none)) (hu : w.Unmarshal data = (v, some err)) :
    main w Args
      = { stdout := ["Parsing file " ++ " " ++ file ++ "\n",
                     "Error unmarshalling" ++ " " ++ err ++ "\n"],
          stderr := [], termination := .returned } := by
  simp only [main, ha, ho, hr, hu, List.singleton_append]

theorem not_rendering_parsing (o : oval_definitions) (file : String) :
    o.String ++ "\n" ≠ "Parsing file " ++ " " ++ file ++ "\n" := by
  rw [String.append_assoc, String.append_assoc]
  exact rendering_ne o _ _ 'P' rfl (by decide)

theorem not_rendering_open (o : oval_definitions) (err : String) :
    o.String ++ "\n" ≠ "Error opening file:" ++ " " ++ err ++ "\n" := by
  rw [String.append_assoc, String.append_assoc]
  exact rendering_ne o _ _ 'E' rfl (by decide)

theorem not_rendering_unmarshal (o : oval_definitions) (err : String) :
    o.String ++ "\n" ≠ "Error unmarshalling" ++ " " ++ err ++ "\n" := by
  rw [String.append_assoc, String.append_assoc]
  exact rendering_ne o _ _ 'E' rfl (by decide)

theorem not_rendering_usage (o : oval_definitions) (Args : List String) :
    o.String ++ "\n" ∉ (usage_and_exit Args { Message := "wrong # of arguments" }).stdout := by
  have h₁ : o.String ++ "\n" ≠ "wrong # of arguments" ++ "\n" :=
    rendering_ne o _ _ 'w' rfl (by decide)
  cases Args with
  | nil => simpa [usage_and_exit, myError.Error] using h₁
  | cons arg0 rest =>
    have h₂ : o.String ++ "\n" ≠ "usage: %s filename.xml" ++ " " ++ arg0 ++ "\n" := by
      rw [String.append_assoc, String.append_assoc]
      exact rendering_ne o _ _ 'u' rfl (by decide)
    have h₃ : o.String ++ "\n" ≠ " where filename.xml is oval xml file to parse" ++ "\n" :=
      rendering_ne o _ _ ' ' rfl (by decide)
    simp only [usage_and_exit, myError.Error, List.singleton_append, List.cons_append,
      List.nil_append, List.mem_cons, List.mem_singleton, List.not_mem_nil, or_false, not_or]
    exact ⟨h₁, h₂, h₃⟩

/-- C11: when opening the file, reading it or unmarshalling the document
fails, `main` stops before the rendering.  The run is then exactly: the
announcement and the line `Error opening file: ` with the error, and a return;
or the announcement, the logged error on standard error and exit code 1; or
the announcement and the line `Error unmarshalling ` with the error, and a
return, whatever value was left in `v`.  So no line written to standard output
is the rendering of a document, of the value left in `v` in particular; and
whenever a line of standard output is the rendering of a document, the file
was opened and read and unmarshalling returned no error, and the line is the
rendering of the unmarshalled document. -/
theorem main_aborts_before_rendering (w : World) (Args : List String) :
    (∀ file err, getArgs Args = (file, none) → w.Open file = .error err →
      main w Args
        = { stdout := ["Parsing file " ++ " " ++ file ++ "\n",
                       "Error opening file:" ++ " " ++ err ++ "\n"],
            stderr := [], termination := .returned })
    ∧ (∀ file xmlFile data err, getArgs Args = (file, none) → w.Open file = .ok xmlFile →
        w.ReadAll xmlFile = (data, some err) →
        main w Args
          = { stdout := ["Parsing file " ++ " " ++ file ++ "\n"], stderr := [logLine w err],
              termination := .exited 1 })
    ∧ (∀ file xmlFile data v err, getArgs Args = (file, none) → w.Open file = .ok xmlFile →
        w.ReadAll xmlFile = (data, none) → w.Unmarshal data = (v, some err) →
        main w Args
          = { stdout := ["Parsing file " ++ " " ++ file ++ "\n",
                         "Error unmarshalling" ++ " " ++ err ++ "\n"],
              stderr := [], termination := .returned })
    ∧ (∀ file err, getArgs Args = (file, none) → w.Open file = .error err →
      ∀ o : oval_definitions, o.String ++ "\n" ∉ (main w Args).stdout)
    ∧ (∀ file xmlFile data err, getArgs Args = (file, none) → w.Open file = .ok xmlFile →
        w.ReadAll xmlFile = (data, some err) →
        ∀ o : oval_definitions, o.String ++ "\n" ∉ (main w Args).stdout)
    ∧ (∀ file xmlFile data v err, getArgs Args = (file, none) → w.Open file = .ok xmlFile →
        w.ReadAll xmlFile = (data, none) → w.Unmarshal data = (v, some err) →
        v.String ++ "\n" ∉ (main w Args).stdout
        ∧ ∀ o : oval_definitions, o.String ++ "\n" ∉ (main w Args).stdout)
    ∧ (∀ o : oval_definitions, o.String ++ "\n" ∈ (main w Args).stdout →
        ∃ file xmlFile data v, getArgs Args = (file, none) ∧ w.Open file = .ok xmlFile
          ∧ w.ReadAll xmlFile = (data, none) ∧ w.Unmarshal data = (v, none)
          ∧ o.String = v.String) := by
  have hopen : ∀ file err, getArgs Args = (file, none) → w.Open file = .error err →
      ∀ o : oval_definitions, o.String ++ "\n" ∉ (main w Args).stdout := by
    intro file err ha ho o
    rw [main_open_error w ha ho]
    simp only [List.mem_cons, List.mem_singleton, List.not_mem_nil, or_false, not_or]
    exact ⟨not_rendering_parsing o file, not_rendering_open o err⟩
  have hread : ∀ file xmlFile data err, getArgs Args = (file, none) →
      w.Open file = .ok xmlFile → w.ReadAll xmlFile = (data, some err) →
      ∀ o : oval_definitions, o.String ++ "\n" ∉ (main w Args).stdout := by
    intro file xmlFile data err ha ho hr o
    rw [main_read_error w ha ho hr]
    simp only [List.mem_cons, List.mem_singleton, List.not_mem_nil, or_false]
    exact not_rendering_parsing o file
  have hunm : ∀ file xmlFile data v err, getArgs Args = (file, none) →
      w.Open file = .ok xmlFile → w.ReadAll xmlFile = (data, none) →
      w.Unmarshal data = (v, some err) →
      ∀ o : oval_definitions, o.String ++ "\n" ∉ (main w Args).stdout := by
    intro file xmlFile data v err ha ho hr hu o
    rw [main_unmarshal_error w ha ho hr hu]
    simp only [List.mem_cons, List.mem_singleton, List.not_mem_nil, or_false, not_or]
    exact ⟨not_rendering_parsing o file, not_rendering_unmarshal o err⟩
  refine ⟨fun file err ha ho => main_open_error w ha ho,
    fun file xmlFile data err ha ho hr => main_read_error w ha ho hr,
    fun file xmlFile data v err ha ho hr hu => main_unmarshal_error w ha ho hr hu,
    hopen, hread, fun file xmlFile data v err ha ho hr hu =>
    ⟨hunm file xmlFile data v err ha ho hr hu v, hunm file xmlFile data v err ha ho hr hu⟩, ?_⟩
  intro o hmem
  rcases ha : getArgs Args with ⟨file, _ | e⟩
  · rcases ho : w.Open file with err | xmlFile
    · exact absurd hmem (hopen file err ha ho o)
    · rcases hr : w.ReadAll xmlFile with ⟨data, _ | err⟩
      · rcases hu : w.Unmarshal data with ⟨v, _ | err⟩
        · refine ⟨file, xmlFile, data, v, rfl, ho, hr, hu, ?_⟩
          rw [main_rendered w Args file xmlFile data v ha ho hr hu] at hmem
          simp only [renderedRun, List.mem_cons, List.mem_singleton, List.not_mem_nil,
            or_false] at hmem
          rcases hmem with h | h
          · exact absurd h (not_rendering_parsing o file)
          · have := congrArg String.data h
            simp only [String.data_append, List.append_cancel_right_eq] at this
            exact String.ext this
        · exact absurd hmem (hunm file xmlFile data v err ha ho hr hu o)
      · exact absurd hmem (hread file xmlFile data err ha ho hr o)
  · rw [main_usage w ha, getArgs_error ha] at hmem
    exact absurd hmem (not_rendering_usage o Args)

end Oval
